import Mathlib

/-!
Shallow embedding of the WEEE image-classification pipeline
(`app/agents/weee_classifier.py`, `app/services/vision.py`,
`app/routes.py`) and proofs about its specification.

Python strings become `String`, Python ints become `Int`/`Nat`,
Python floats arising from exact arithmetic on small integers are
modelled by `ℚ`, `Optional[T]` becomes `Option T`, and a fallible
provider call becomes `Except`.
-/

namespace WEEE

/-- Python `c.lower()` per character (ASCII case folding, which covers
every character the keyword tables compare case-sensitively). -/
def pyLower (s : String) : String := String.mk (s.data.map Char.toLower)

/-- The whitespace characters removed by Python `str.strip()` (the
ASCII ones; the tables and claims never involve exotic whitespace). -/
def isSpaceChar (c : Char) : Bool :=
  c == ' ' || c == '\t' || c == '\n' || c == '\r' || c == '\x0b' || c == '\x0c'

/-- Python `s.strip()`: drop whitespace from both ends. -/
def pyStrip (s : String) : String :=
  String.mk (((s.data.dropWhile isSpaceChar).reverse.dropWhile isSpaceChar).reverse)

/-- Python `(s or "").strip().lower()` from `_norm` in
`weee_classifier.py` (both the `None` and the empty string collapse
to `""`). -/
def pyNorm (s : Option String) : String := pyLower (pyStrip (s.getD ""))

/-- Python `_norm` applied to a plain `str` argument. -/
def pyNormStr (s : String) : String := pyLower (pyStrip s)

/-- Helper for Python's substring operator: does the first list of
characters occur at the head of the second one. -/
def leadMatch : List Char → List Char → Bool
  | [], _ => true
  | _ :: _, [] => false
  | a :: as, b :: bs => a == b && leadMatch as bs

/-- Helper for Python's substring operator: does the first list of
characters occur contiguously anywhere in the second one. -/
def hasSub (k : List Char) : List Char → Bool
  | [] => leadMatch k []
  | c :: ts => leadMatch k (c :: ts) || hasSub k ts

/-- Python `k in t` on strings (contiguous substring test). -/
def pyIn (k t : String) : Bool := hasSub k.data t.data

/-- The per-category keyword table `KEYWORDS` from `weee_classifier.py`,
in the source's (insertion) order 1..6. -/
def KEYWORDS : List (Nat × List String) := [
  (1, ["refrigerador","geladeira","frigorífico","freezer","congelador","ar-condicionado","ar condicionado","condicionador de ar","bomba de calor","heat pump","air conditioner","fridge","cooler"]),
  (2, ["televisor","tv","smart tv","monitor","ecrã","tela","laptop","notebook","tablet","display","screen"]),
  (3, ["lâmpada","lampada","lamp","bulbo","light bulb","fluorescente","led","incandescente","tube","tubo"]),
  (4, ["máquina de lavar","lavadora","secadora","lava-louças","lava louças","dishwasher","stove","fogão","oven","forno","range","geladeira grande"]),
  (5, ["aspirador","micro-ondas","microondas","torradeira","ferro de passar","kettle","chaleira","liquidificador","blender","mixer","câmera","camera"]),
  (6, ["celular","telefone","smartphone","phone","pc pequeno","mini pc","router","roteador","gps","calculadora","calculator","modem","printer","impressora","tablet","notebook","laptop"])]

/-- The `NON_EEE_KEYWORDS` list from `weee_classifier.py`. -/
def NON_EEE_KEYWORDS : List String := [
  "pessoa","person","homem","mulher","people","boy","girl",
  "dog","cachorro","cat","gato","animal","bird","passaro","cavalo",
  "árvore","tree","plant","planta","flor","flower","grass","grama","landscape","paisagem","sky","céu","beach","praia","ocean","mar","montanha",
  "car","carro","bike","bicycle","moto","motorcycle","truck","caminhão","bus","ônibus",
  "food","comida","fruta","fruit","vegetal","vegetable","drink","bebida",
  "house","casa","building","prédio","rua","street","wall","parede","sofa","couch","table","mesa","chair","cadeira","book","livro"]

/-- The fixed category table `CATEGORIES` from `weee_classifier.py`. -/
def CATEGORIES : List (Nat × String) := [
  (1, "Equipamentos de troca de temperatura"),
  (2, "Ecrãs/Monitores (>100 cm²)"),
  (3, "Lâmpadas"),
  (4, "Grandes (dimensão > 50cm)"),
  (5, "Pequenos (dimensão <= 50cm)"),
  (6, "TIC pequena dimensão (<= 50cm)")]

/-- Python `next(c["name"] for c in CATEGORIES if c["id"] == cid)`
(only ever called with an id that is present). -/
def catName (cid : Nat) : String :=
  ((CATEGORIES.filter (fun c => c.1 == cid)).headD (0, "")).2

/-- The function `_token_hits` from `weee_classifier.py`: the number of
keywords occurring (case-insensitively) as substrings of the text. -/
def tokenHits (text : String) (keywords : List String) : Nat :=
  keywords.countP (fun k => pyIn k (pyNormStr text))

/-- The per-category score map `{cid: _token_hits(combined, kws) for cid, kws in KEYWORDS.items()}`
built by `rule_agent` and by `classify_image_bytes`, as an association
list in the dict's insertion order. -/
def catScoresOf (combined : String) : List (Nat × Nat) :=
  KEYWORDS.map (fun p => (p.1, tokenHits combined p.2))

/-- Python `sum(cat_scores.values())`. -/
def sumScores (scores : List (Nat × Nat)) : Nat := (scores.map Prod.snd).sum

/-- The function `_is_non_eee` from `weee_classifier.py`. -/
def isNonEee (text : String) (catScores : List (Nat × Nat)) : Bool :=
  if sumScores catScores > 0 then false
  else decide (2 ≤ tokenHits text NON_EEE_KEYWORDS)

/-- An axis-aligned bounding box `{x, y, w, h}` in integer pixel
coordinates, as produced by the object detector. -/
structure BBox where
  x : Int
  y : Int
  w : Int
  h : Int
deriving DecidableEq, Repr

/-- A detected object dict as it flows through the pipeline: `name`,
`confidence`, optional `caption`, optional `bbox`, optional `crop_url`.
Absent dict keys are `none`. -/
structure DetObj where
  name : Option String
  confidence : ℚ
  caption : Option String
  bbox : Option BBox
  crop_url : Option String
deriving DecidableEq, Repr

/-- Python truthiness of an optional string (`None` and `""` are falsy). -/
def truthyStr : Option String → Bool
  | none => false
  | some s => !(s == "")

/-- One iteration of the loop in `_pick_best_object`: keep the running
best, replace it on strictly higher confidence, or on an exact tie when
the newcomer has a caption and the running best has none. -/
def pickStep (best o : DetObj) : DetObj :=
  if o.confidence > best.confidence then o
  else if o.confidence = best.confidence then
    if truthyStr o.caption = true ∧ truthyStr best.caption = false then o else best
  else best

/-- The function `_pick_best_object` from `weee_classifier.py`. -/
def pickBestObject : List DetObj → Option DetObj
  | [] => none
  | o :: os => some (os.foldl pickStep o)

/-- The function `_estimate_size_ratio` from `weee_classifier.py`. -/
def estimateSizeRatio (imgW imgH : Int) (b : BBox) : ℚ :=
  ((max 1 b.w * max 1 b.h : Int) : ℚ) / ((max 1 imgW * max 1 imgH : Int) : ℚ)

/-- The function `_size_to_bucket` from `weee_classifier.py`. -/
def sizeToBucket (r : ℚ) : String :=
  if r ≥ (20 : ℚ) / 100 then "grande" else "pequeno"

/-- The `SizeAgentOutput` dataclass. -/
structure SizeAgentOutput where
  img_size : Int × Int
  object_bbox : Option BBox
  size_ratio : Option ℚ
  size_bucket : Option String
deriving Repr

/-- The function `size_agent` from `weee_classifier.py`, with the
decoded image dimensions passed explicitly in place of the PIL decode
of the raw bytes. -/
def size_agent (imgW imgH : Int) (top : Option DetObj) : SizeAgentOutput :=
  match top with
  | none => ⟨(imgW, imgH), none, none, none⟩
  | some o =>
    match o.bbox with
    | none => ⟨(imgW, imgH), none, none, none⟩
    | some b =>
      let r := estimateSizeRatio imgW imgH b
      ⟨(imgW, imgH), some b, some r, some (sizeToBucket r)⟩

/-- The `evidence` dict attached to a rule decision; keys absent from a
given branch are `none`. -/
structure Evidence where
  source : String
  scores : Option (List (Nat × Nat))
  text : String
  size_bucket : Option String
deriving DecidableEq, Repr

/-- The `RuleAgentOutput` dataclass. -/
structure RuleAgentOutput where
  category_id : Nat
  category_name : String
  score : Nat
  evidence : Evidence
deriving DecidableEq, Repr

/-- The combined evidence text built identically in `rule_agent` and in
`classify_image_bytes`: object name, object caption, scene caption (each
only when truthy), joined with `" | "`. -/
def combinedText (image_caption : Option String) (top : Option DetObj) : String :=
  let texts :=
    (match top with
     | none => []
     | some o =>
       (if truthyStr o.name then [o.name.getD ""] else []) ++
       (if truthyStr o.caption then [o.caption.getD ""] else [])) ++
    (if truthyStr image_caption then [image_caption.getD ""] else [])
  String.intercalate " | " texts

/-- The fixed preference order `pref = [1, 2, 3, 6, 4, 5]` used for
tie-breaking in `rule_agent`. -/
def prefOrder : List Nat := [1, 2, 3, 6, 4, 5]

/-- Python `pref.index(x)`. -/
def prefIndex (c : Nat) : Nat := prefOrder.indexOf c

/-- Python `sorted(candidates, key=lambda x: pref.index(x))[0]`: the
first element minimising `prefIndex` (the sort key is injective on the
distinct category ids, so the stable sort's head is the strict-minimum
fold below). -/
def chooseByPref : List Nat → Nat
  | [] => 0
  | c :: cs => cs.foldl (fun b x => if prefIndex x < prefIndex b then x else b) c

/-- Python `max(cat_scores.values())` (over the nonnegative counts the
extra `0` seed is neutral). -/
def maxValues (scores : List (Nat × Nat)) : Nat := (scores.map Prod.snd).foldl Nat.max 0

/-- The function `rule_agent` from `weee_classifier.py`. -/
def rule_agent (image_caption : Option String) (top : Option DetObj)
    (size_bucket : Option String) : RuleAgentOutput :=
  let combined := combinedText image_caption top
  let cat_scores := catScoresOf combined
  if cat_scores.all (fun p => p.2 == 0) then
    let cid := if size_bucket == some "grande" then 4 else 5
    { category_id := cid, category_name := catName cid, score := 1,
      evidence := { source := "size_fallback", scores := none,
                    text := combined, size_bucket := size_bucket } }
  else
    let best := maxValues cat_scores
    let candidates := (cat_scores.filter (fun p => p.2 == best)).map Prod.fst
    let cid := chooseByPref candidates
    { category_id := cid, category_name := catName cid, score := best,
      evidence := { source := "keywords", scores := some cat_scores,
                    text := combined, size_bucket := size_bucket } }

/-- The `filtered` record `{"reason": "non_eee", "text": combined}`. -/
structure FilteredInfo where
  reason : String
  text : String
deriving DecidableEq, Repr

/-- The `VisualAgentOutput` dataclass (the detector's result). -/
structure VisualAgentOutput where
  image_caption : Option String
  objects : List DetObj
  original_url : String
  session_id : String
deriving Repr

/-- The dict returned by `classify_image_bytes`; keys absent in a given
branch (`filtered` in the classified branch, `explanation` and the rules
record in the filtered branch) are `none`. -/
structure ClassificationResult where
  session_id : String
  original_url : String
  image_caption : Option String
  top_object : Option DetObj
  size : SizeAgentOutput
  rules : Option RuleAgentOutput
  category : Option (Nat × String)
  confidence : ℚ
  filtered : Option FilteredInfo
  explanation : Option Evidence
deriving Repr

/-- Python `float(top_obj.get("confidence", 0.0)) if top_obj else 0.0`. -/
def confOf : Option DetObj → ℚ
  | some o => o.confidence
  | none => 0

/-- The function `classify_image_bytes` from `weee_classifier.py`,
shallowly embedded: the network-backed `visual_agent` result is a
parameter, the PIL image decode is replaced by the explicit dimensions,
and the network-backed `_try_llm_arbiter` result (an override or `None`)
is the `arbiter` parameter, consulted exactly when `use_llm_arbiter`. -/
def classify_image_bytes (imgW imgH : Int) (vis : VisualAgentOutput)
    (use_llm_arbiter : Bool) (arbiter : Option RuleAgentOutput) : ClassificationResult :=
  let top_obj := pickBestObject vis.objects
  let sz := size_agent imgW imgH top_obj
  let combined := combinedText vis.image_caption top_obj
  let cat_scores := catScoresOf combined
  if isNonEee combined cat_scores then
    { session_id := vis.session_id, original_url := vis.original_url,
      image_caption := vis.image_caption, top_object := top_obj,
      size := sz, rules := none, category := none,
      confidence := confOf top_obj,
      filtered := some { reason := "non_eee", text := combined },
      explanation := none }
  else
    let rules_choice := rule_agent vis.image_caption top_obj sz.size_bucket
    let final_choice := if use_llm_arbiter then arbiter.getD rules_choice else rules_choice
    { session_id := vis.session_id, original_url := vis.original_url,
      image_caption := vis.image_caption, top_object := top_obj,
      size := sz, rules := some rules_choice,
      category := some (final_choice.category_id, final_choice.category_name),
      confidence := confOf top_obj,
      filtered := none,
      explanation := some final_choice.evidence }

/-- The intersection area computed by `_iou` in `vision.py` (and by the
identical arithmetic of `_bbox_iou` in `routes.py`):
`max(0, inter_x2 - inter_x1) * max(0, inter_y2 - inter_y1)`. -/
def interArea (A B : BBox) : Int :=
  max 0 (min (A.x + A.w) (B.x + B.w) - max A.x B.x) *
    max 0 (min (A.y + A.h) (B.y + B.h) - max A.y B.y)

/-- The union term `areaA + areaB - inter_area` of `_iou`. -/
def unionArea (A B : BBox) : Int := A.w * A.h + B.w * B.h - interArea A B

/-- The function `_iou` from `vision.py`: `0.0` when `union <= 0`,
otherwise `inter_area / union`. -/
def iou (A B : BBox) : ℚ :=
  if unionArea A B ≤ 0 then 0
  else (interArea A B : ℚ) / (unionArea A B : ℚ)

/-- The function `_bbox_iou` from `routes.py`:
`(inter_area / union) if union > 0 else 0.0`. -/
def bbox_iou (A B : BBox) : ℚ :=
  if unionArea A B > 0 then (interArea A B : ℚ) / (unionArea A B : ℚ)
  else 0

/-- Python 3 `round` on an exact value (round half to even), composed
with the no-op `int(...)` of `_resize_to_valid`. -/
def pyRound (q : ℚ) : Int :=
  let f := ⌊q⌋
  if q - f < 1 / 2 then f
  else if q - f > 1 / 2 then f + 1
  else if f % 2 = 0 then f else f + 1

/-- The function `_resize_to_valid` from `vision.py`, on the image
dimensions: returns the (possibly rescaled) width and height.  The
two float branches of the Python `if/else` on `scale == 1.0` compute
the same `min(scale, max_side / max(w, h))`, so they are merged.
(Python would raise `ZeroDivisionError` on a zero-sized image; every
claim about this function assumes positive dimensions.) -/
def resize_to_valid (minSide maxSide w h : Int) : Int × Int :=
  let scale1 : ℚ := if min w h < minSide then max 1 ((minSide : ℚ) / ((min w h : Int) : ℚ)) else 1
  let scale2 : ℚ := if max w h > maxSide then min scale1 ((maxSide : ℚ) / ((max w h : Int) : ℚ)) else scale1
  if scale2 ≠ 1 then
    (max minSide (min (pyRound ((w : ℚ) * scale2)) maxSide),
     max minSide (min (pyRound ((h : ℚ) * scale2)) maxSide))
  else (w, h)

/-- Failure of a vision-provider call. -/
inductive VisionError
  | providerFailure
deriving DecidableEq, Repr

/-- The per-object caption loop of `analyze_image_bytes` in `vision.py`
(lines 144-164), embedded over an abstract per-crop caption call
`capCall idx` (the `client.analyze(..., CAPTION)` request for crop
`idx`, returning the optional caption text or failing).  Faithful to
the source: an object whose index has no crop (`idx >= len(crops)`) is
skipped unchanged, and the provider call is issued with NO surrounding
`try/except`, so in the `Except` embedding a failure aborts the whole
traversal exactly as the uncaught Python exception aborts
`analyze_image_bytes`. -/
def attachCaptions (capCall : Nat → Except VisionError (Option String))
    (numCrops : Nat) : Nat → List DetObj → Except VisionError (List DetObj)
  | _, [] => Except.ok []
  | idx, o :: rest =>
    if numCrops ≤ idx then
      do
        let tail ← attachCaptions capCall numCrops (idx + 1) rest
        return o :: tail
    else
      do
        let cap ← capCall idx
        let tail ← attachCaptions capCall numCrops (idx + 1) rest
        return { o with caption := cap } :: tail

/-- C1: for every combined text and score map, `_is_non_eee` returns
false whenever the category scores sum to a positive value; when they
sum to 0 it returns true exactly when at least 2 of the (pairwise
distinct) non-EEE keywords occur in the text, and in particular a
single non-EEE keyword match never triggers the filter. -/
theorem nonEee_filter_spec (text : String) (scores : List (Nat × Nat)) :
    (0 < sumScores scores → isNonEee text scores = false) ∧
    (sumScores scores = 0 →
      (isNonEee text scores = true ↔ 2 ≤ tokenHits text NON_EEE_KEYWORDS)) ∧
    (sumScores scores = 0 → tokenHits text NON_EEE_KEYWORDS = 1 →
      isNonEee text scores = false) ∧
    NON_EEE_KEYWORDS.Nodup := by
  refine ⟨?_, ?_, ?_, by decide⟩
  · intro h
    simp [isNonEee, h]
  · intro h
    simp [isNonEee, h]
  · intro h h1
    simp [isNonEee, h, h1]

/-- Witness for `nonEee_filter_spec`: two distinct matches ("dog",
"cat") trigger the filter, a single match ("dog") does not, and a
positive score sum suppresses it. -/
theorem nonEee_filter_spec_witness :
    isNonEee "dog cat" [] = true ∧ isNonEee "dog" [] = false ∧
    isNonEee "dog cat" [(1, 3)] = false := by
  refine ⟨?_, ?_, ?_⟩
  · exact ((nonEee_filter_spec "dog cat" []).2.1 rfl).mpr (by decide)
  · exact (nonEee_filter_spec "dog" []).2.2.1 rfl (by decide)
  · exact (nonEee_filter_spec "dog cat" [(1, 3)]).1 (by decide)

/-- C10: the one-word combined text "carro" triggers the non-EEE
filter on its own, because it is a substring match for the two distinct
non-EEE keywords "car" and "carro" while every category keyword score
is zero. -/
theorem single_word_carro_triggers_filter :
    combinedText none (some ⟨some "carro", 9 / 10, none, none, none⟩) = "carro" ∧
    sumScores (catScoresOf "carro") = 0 ∧
    pyIn "car" (pyNormStr "carro") = true ∧
    pyIn "carro" (pyNormStr "carro") = true ∧
    ("car" : String) ≠ "carro" ∧
    tokenHits "carro" NON_EEE_KEYWORDS = 2 ∧
    isNonEee "carro" (catScoresOf "carro") = true := by decide

/-- C2: whenever all six category scores over the combined text are
zero, `rule_agent` records evidence source "size_fallback" and returns
category 4 for size bucket "grande" (large) and category 5 for bucket
"pequeno" (small) or for an absent bucket. -/
theorem rule_agent_size_fallback (image_caption : Option String) (top : Option DetObj)
    (size_bucket : Option String)
    (h : ∀ p ∈ catScoresOf (combinedText image_caption top), p.2 = 0) :
    (rule_agent image_caption top size_bucket).evidence.source = "size_fallback" ∧
    (size_bucket = some "grande" →
      (rule_agent image_caption top size_bucket).category_id = 4) ∧
    (size_bucket = some "pequeno" ∨ size_bucket = none →
      (rule_agent image_caption top size_bucket).category_id = 5) := by
  have hall : (catScoresOf (combinedText image_caption top)).all (fun p => p.2 == 0) = true := by
    simpa [List.all_eq_true] using h
  refine ⟨?_, ?_, ?_⟩
  · simp [rule_agent, hall]
  · rintro rfl
    simp [rule_agent, hall]
  · rintro (rfl | rfl) <;> simp [rule_agent, hall]

/-- Witness for `rule_agent_size_fallback`: with no evidence text at
all, bucket "grande" yields category 4 with source "size_fallback". -/
theorem rule_agent_size_fallback_witness :
    (rule_agent none none (some "grande")).evidence.source = "size_fallback" ∧
    (rule_agent none none (some "grande")).category_id = 4 := by
  have h := rule_agent_size_fallback none none (some "grande") (by decide)
  exact ⟨h.1, h.2.1 rfl⟩

/-- C7: an image whose shorter side is at least 50 pixels and whose
longer side is at most 16000 pixels passes through `_resize_to_valid`
unchanged. -/
theorem resize_within_bounds_identity (w h : Int)
    (hmin : 50 ≤ min w h) (hmax : max w h ≤ 16000) :
    resize_to_valid 50 16000 w h = (w, h) := by
  have h1 : ¬ (min w h < 50) := not_lt.mpr hmin
  have h2 : ¬ (max w h > 16000) := not_lt.mpr hmax
  simp [resize_to_valid, h1, h2]

/-- Witness for `resize_within_bounds_identity` at a 100×200 image. -/
theorem resize_within_bounds_identity_witness :
    resize_to_valid 50 16000 100 200 = (100, 200) :=
  resize_within_bounds_identity 100 200 (by decide) (by decide)

theorem interArea_comm (A B : BBox) : interArea A B = interArea B A := by
  unfold interArea
  rw [min_comm (A.x + A.w), max_comm A.x, min_comm (A.y + A.h), max_comm A.y]

theorem unionArea_comm (A B : BBox) : unionArea A B = unionArea B A := by
  unfold unionArea
  rw [interArea_comm]
  ring_nf

theorem interArea_self (A : BBox) (hw : 0 < A.w) (hh : 0 < A.h) :
    interArea A A = A.w * A.h := by
  unfold interArea
  rw [min_self, min_self, max_self, max_self, add_sub_cancel_left, add_sub_cancel_left,
    max_eq_right hw.le, max_eq_right hh.le]

/-- C6: the implemented IoU is symmetric for all integer boxes, equals
1.0 on two identical rectangles (positive sides), equals 0.0 on two
disjoint rectangles (empty intersection), is 0 whenever the union term
is non-positive, and the `routes.py` copy `_bbox_iou` agrees with the
`vision.py` one everywhere. -/
theorem iou_spec (A B : BBox) :
    iou A B = iou B A ∧
    (0 < A.w → 0 < A.h → iou A A = 1) ∧
    (interArea A B = 0 → iou A B = 0) ∧
    (unionArea A B ≤ 0 → iou A B = 0) ∧
    bbox_iou A B = iou A B := by
  refine ⟨?_, ?_, ?_, ?_, ?_⟩
  · unfold iou
    rw [interArea_comm, unionArea_comm]
  · intro hw hh
    have hi := interArea_self A hw hh
    have hu : unionArea A A = A.w * A.h := by
      unfold unionArea
      rw [hi]
      ring
    have hpos : (0 : Int) < A.w * A.h := mul_pos hw hh
    unfold iou
    rw [hu, hi, if_neg (not_le.mpr hpos)]
    exact div_self (by exact_mod_cast hpos.ne')
  · intro h0
    unfold iou
    rcases le_or_lt (unionArea A B) 0 with hle | hlt
    · rw [if_pos hle]
    · rw [if_neg (not_le.mpr hlt), h0]
      simp
  · intro hle
    unfold iou
    rw [if_pos hle]
  · unfold iou bbox_iou
    rcases le_or_lt (unionArea A B) 0 with hle | hlt
    · rw [if_pos hle, if_neg (not_lt.mpr hle)]
    · rw [if_neg (not_le.mpr hlt), if_pos hlt]

/-- Witness for `iou_spec`: a 2×3 box has IoU 1 with itself and IoU 0
with a disjoint box. -/
theorem iou_spec_witness :
    iou ⟨0, 0, 2, 3⟩ ⟨0, 0, 2, 3⟩ = 1 ∧ iou ⟨0, 0, 2, 3⟩ ⟨10, 10, 2, 2⟩ = 0 :=
  ⟨(iou_spec ⟨0, 0, 2, 3⟩ ⟨0, 0, 2, 3⟩).2.1 (by decide) (by decide),
   (iou_spec ⟨0, 0, 2, 3⟩ ⟨10, 10, 2, 2⟩).2.2.1 (by decide)⟩

theorem pickStep_or (best o : DetObj) : pickStep best o = o ∨ pickStep best o = best := by
  unfold pickStep
  split_ifs <;> simp

theorem pickStep_conf (best o : DetObj) :
    best.confidence ≤ (pickStep best o).confidence ∧
    o.confidence ≤ (pickStep best o).confidence := by
  unfold pickStep
  split_ifs with h1 h2 h3
  · exact ⟨le_of_lt h1, le_refl _⟩
  · exact ⟨le_of_eq h2.symm, le_refl _⟩
  · exact ⟨le_refl _, le_of_eq h2⟩
  · exact ⟨le_refl _, not_lt.mp h1⟩

theorem pickFold_mem : ∀ (l : List DetObj) (b : DetObj), l.foldl pickStep b ∈ b :: l
  | [], _ => by simp
  | y :: ys, b => by
    have ih := pickFold_mem ys (pickStep b y)
    simp only [List.foldl_cons]
    rcases List.mem_cons.mp ih with h | h
    · rcases pickStep_or b y with h1 | h1 <;> rw [h, h1] <;> simp
    · simp [h]

theorem pickFold_conf : ∀ (l : List DetObj) (b : DetObj),
    b.confidence ≤ (l.foldl pickStep b).confidence ∧
    ∀ x ∈ l, x.confidence ≤ (l.foldl pickStep b).confidence
  | [], _ => by simp
  | y :: ys, b => by
    have hs := pickStep_conf b y
    have ih := pickFold_conf ys (pickStep b y)
    simp only [List.foldl_cons]
    refine ⟨le_trans hs.1 ih.1, ?_⟩
    intro x hx
    rcases List.mem_cons.mp hx with h | h
    · subst h
      exact le_trans hs.2 ih.1
    · exact ih.2 x h

/-- C5: `_pick_best_object` returns none on the empty list; otherwise it
returns a member of the list whose confidence is maximal; and each loop
step replaces the running best exactly when the newcomer has strictly
higher confidence, or ties it while carrying a non-empty caption the
running best lacks — in every other tie the earlier (first-seen) object
is kept. -/
theorem pick_best_object_spec :
    pickBestObject [] = none ∧
    (∀ (l : List DetObj) (b : DetObj), pickBestObject l = some b →
      b ∈ l ∧ ∀ x ∈ l, x.confidence ≤ b.confidence) ∧
    (∀ best o : DetObj, pickStep best o =
      if o.confidence > best.confidence ∨
          (o.confidence = best.confidence ∧
            truthyStr o.caption = true ∧ truthyStr best.caption = false)
      then o else best) := by
  refine ⟨rfl, ?_, ?_⟩
  · intro l b hb
    cases l with
    | nil => simp [pickBestObject] at hb
    | cons o os =>
      have hb' : b = os.foldl pickStep o := by
        simpa [pickBestObject, eq_comm] using hb
      subst hb'
      refine ⟨pickFold_mem os o, ?_⟩
      intro x hx
      rcases List.mem_cons.mp hx with h | h
      · exact h ▸ (pickFold_conf os o).1
      · exact (pickFold_conf os o).2 x h
  · intro best o
    unfold pickStep
    split_ifs <;> first | rfl | tauto

/-- Witness for `pick_best_object_spec`: of two equally confident
objects, the captioned one is selected and its confidence is maximal. -/
theorem pick_best_object_spec_witness :
    (⟨some "b", 1, some "cap", none, none⟩ : DetObj) ∈
      [⟨some "a", 1, none, none, none⟩, ⟨some "b", 1, some "cap", none, none⟩] ∧
    ∀ x ∈ [(⟨some "a", 1, none, none, none⟩ : DetObj),
           ⟨some "b", 1, some "cap", none, none⟩],
      x.confidence ≤ (⟨some "b", 1, some "cap", none, none⟩ : DetObj).confidence :=
  pick_best_object_spec.2.1
    [⟨some "a", 1, none, none, none⟩, ⟨some "b", 1, some "cap", none, none⟩]
    ⟨some "b", 1, some "cap", none, none⟩ (by decide)

theorem confOf_eq (t : Option DetObj) :
    confOf t = (t.map DetObj.confidence).getD 0 := by
  cases t <;> rfl

/-- C4: every result of `classify_image_bytes` — for any detector
output, image dimensions, arbiter toggle and arbiter outcome — has
`category` and `filtered` mutually exclusive with exactly one of them
non-null, carries the selected top object, and its confidence equals
that object's confidence (0 when there is no top object). -/
theorem classification_result_invariant (imgW imgH : Int) (vis : VisualAgentOutput)
    (use_llm : Bool) (arbiter : Option RuleAgentOutput) :
    (((classify_image_bytes imgW imgH vis use_llm arbiter).category = none ∧
      (classify_image_bytes imgW imgH vis use_llm arbiter).filtered.isSome = true) ∨
     ((classify_image_bytes imgW imgH vis use_llm arbiter).category.isSome = true ∧
      (classify_image_bytes imgW imgH vis use_llm arbiter).filtered = none)) ∧
    (classify_image_bytes imgW imgH vis use_llm arbiter).top_object =
      pickBestObject vis.objects ∧
    (classify_image_bytes imgW imgH vis use_llm arbiter).confidence =
      (((classify_image_bytes imgW imgH vis use_llm arbiter).top_object).map
        DetObj.confidence).getD 0 := by
  unfold classify_image_bytes
  by_cases h : isNonEee (combinedText vis.image_caption (pickBestObject vis.objects))
      (catScoresOf (combinedText vis.image_caption (pickBestObject vis.objects))) = true
  · simp [h, confOf_eq]
  · simp [h, confOf_eq]

theorem foldl_max_le (l : List Nat) (a : Nat) :
    a ≤ l.foldl Nat.max a ∧ ∀ x ∈ l, x ≤ l.foldl Nat.max a := by
  induction l generalizing a with
  | nil => simp
  | cons y ys ih =>
    have h := ih (Nat.max a y)
    simp only [List.foldl_cons]
    refine ⟨le_trans (Nat.le_max_left a y) h.1, ?_⟩
    intro x hx
    rcases List.mem_cons.mp hx with h1 | h1
    · subst h1
      exact le_trans (Nat.le_max_right a x) h.1
    · exact h.2 x h1

theorem foldl_max_mem (l : List Nat) (a : Nat) : l.foldl Nat.max a ∈ a :: l := by
  induction l generalizing a with
  | nil => simp
  | cons y ys ih =>
    have h := ih (Nat.max a y)
    simp only [List.foldl_cons]
    rcases List.mem_cons.mp h with h1 | h1
    · rw [h1]
      have h2 : a.max y = a ∨ a.max y = y := max_choice a y
      rcases h2 with h2 | h2 <;> rw [h2] <;> simp
    · simp [h1]

theorem foldl_argmin_spec (f : Nat → Nat) (cs : List Nat) : ∀ c : Nat,
    cs.foldl (fun b x => if f x < f b then x else b) c ∈ c :: cs ∧
    ∀ x ∈ c :: cs, f (cs.foldl (fun b x => if f x < f b then x else b) c) ≤ f x := by
  induction cs with
  | nil =>
    intro c
    simp
  | cons y ys ih =>
    intro c
    have h := ih (if f y < f c then y else c)
    simp only [List.foldl_cons]
    have hc2 : (if f y < f c then y else c) = y ∨ (if f y < f c then y else c) = c := by
      split_ifs <;> simp
    have hfc : f (if f y < f c then y else c) ≤ f c := by
      split_ifs with hyc
      · exact le_of_lt hyc
      · exact le_refl _
    have hfy : f (if f y < f c then y else c) ≤ f y := by
      split_ifs with hyc
      · exact le_refl _
      · exact not_lt.mp hyc
    constructor
    · rcases List.mem_cons.mp h.1 with h1 | h1
      · rcases hc2 with h2 | h2 <;> rw [h1, h2] <;> simp
      · simp [h1]
    · intro x hx
      have hhead := h.2 _ (List.mem_cons_self _ _)
      rcases List.mem_cons.mp hx with h1 | h1
      · subst h1
        exact le_trans hhead hfc
      · rcases List.mem_cons.mp h1 with h2 | h2
        · subst h2
          exact le_trans hhead hfy
        · exact h.2 x (List.mem_cons_of_mem _ h2)

theorem chooseByPref_spec (c : Nat) (cs : List Nat) :
    chooseByPref (c :: cs) ∈ c :: cs ∧
    ∀ x ∈ c :: cs, prefIndex (chooseByPref (c :: cs)) ≤ prefIndex x := by
  simpa [chooseByPref] using foldl_argmin_spec prefIndex cs c

/-- C3: with at least one nonzero category score, `rule_agent` returns
a (category, score) pair present in the score map, the score is the
maximum of all six, among maximal categories the returned one comes
earliest in the fixed preference order `[1, 2, 3, 6, 4, 5]`, and the
evidence records source "keywords" with the full per-category score
map. -/
theorem rule_agent_keywords_spec (image_caption : Option String) (top : Option DetObj)
    (size_bucket : Option String)
    (h : ∃ p ∈ catScoresOf (combinedText image_caption top), p.2 ≠ 0) :
    ((rule_agent image_caption top size_bucket).category_id,
     (rule_agent image_caption top size_bucket).score) ∈
      catScoresOf (combinedText image_caption top) ∧
    (∀ p ∈ catScoresOf (combinedText image_caption top),
      p.2 ≤ (rule_agent image_caption top size_bucket).score) ∧
    (∀ p ∈ catScoresOf (combinedText image_caption top),
      p.2 = (rule_agent image_caption top size_bucket).score →
      prefIndex (rule_agent image_caption top size_bucket).category_id ≤ prefIndex p.1) ∧
    prefOrder = [1, 2, 3, 6, 4, 5] ∧
    (rule_agent image_caption top size_bucket).evidence.source = "keywords" ∧
    (rule_agent image_caption top size_bucket).evidence.scores =
      some (catScoresOf (combinedText image_caption top)) := by
  have hall : ¬ ((catScoresOf (combinedText image_caption top)).all
      (fun p => p.2 == 0) = true) := by
    obtain ⟨p, hp, hp2⟩ := h
    simp only [List.all_eq_true]
    intro hforall
    exact hp2 (by simpa using hforall p hp)
  have hmax_le : ∀ p ∈ catScoresOf (combinedText image_caption top),
      p.2 ≤ maxValues (catScoresOf (combinedText image_caption top)) := by
    intro p hp
    simpa [maxValues] using
      (foldl_max_le ((catScoresOf (combinedText image_caption top)).map Prod.snd) 0).2 p.2
        (List.mem_map_of_mem _ hp)
  have hmax_mem : maxValues (catScoresOf (combinedText image_caption top)) ∈
      (catScoresOf (combinedText image_caption top)).map Prod.snd := by
    have hm := foldl_max_mem ((catScoresOf (combinedText image_caption top)).map Prod.snd) 0
    rcases List.mem_cons.mp hm with h0 | h0
    · exfalso
      obtain ⟨p, hp, hp2⟩ := h
      have h1 := hmax_le p hp
      have h2 : maxValues (catScoresOf (combinedText image_caption top)) = 0 := by
        simpa [maxValues] using h0
      omega
    · simpa [maxValues] using h0
  obtain ⟨q, hq, hq2⟩ := List.mem_map.mp hmax_mem
  have hqc : q.1 ∈ ((catScoresOf (combinedText image_caption top)).filter
      (fun p => p.2 == maxValues (catScoresOf (combinedText image_caption top)))).map Prod.fst := by
    apply List.mem_map_of_mem
    rw [List.mem_filter]
    exact ⟨hq, by simpa using hq2⟩
  have hmem_cid : ∀ cid ∈ ((catScoresOf (combinedText image_caption top)).filter
      (fun p => p.2 == maxValues (catScoresOf (combinedText image_caption top)))).map Prod.fst,
      (cid, maxValues (catScoresOf (combinedText image_caption top))) ∈
        catScoresOf (combinedText image_caption top) := by
    intro cid hcid
    obtain ⟨p, hpf, hp1⟩ := List.mem_map.mp hcid
    have hmf := List.mem_filter.mp hpf
    have hp2 : p.2 = maxValues (catScoresOf (combinedText image_caption top)) := by
      simpa using hmf.2
    have hpe : p = (cid, maxValues (catScoresOf (combinedText image_caption top))) := by
      rw [← hp1, ← hp2]
    rw [← hpe]
    exact hmf.1
  have hin_cand : ∀ p ∈ catScoresOf (combinedText image_caption top),
      p.2 = maxValues (catScoresOf (combinedText image_caption top)) →
      p.1 ∈ ((catScoresOf (combinedText image_caption top)).filter
        (fun r => r.2 == maxValues (catScoresOf (combinedText image_caption top)))).map Prod.fst := by
    intro p hp hp2
    apply List.mem_map_of_mem
    rw [List.mem_filter]
    exact ⟨hp, by simpa using hp2⟩
  rcases hcands : ((catScoresOf (combinedText image_caption top)).filter
      (fun p => p.2 == maxValues (catScoresOf (combinedText image_caption top)))).map Prod.fst with
    _ | ⟨c, cs⟩
  · rw [hcands] at hqc
    simp at hqc
  · have hspec := chooseByPref_spec c cs
    have hrule : rule_agent image_caption top size_bucket =
        { category_id := chooseByPref (c :: cs),
          category_name := catName (chooseByPref (c :: cs)),
          score := maxValues (catScoresOf (combinedText image_caption top)),
          evidence := { source := "keywords",
                        scores := some (catScoresOf (combinedText image_caption top)),
                        text := combinedText image_caption top,
                        size_bucket := size_bucket } } := by
      simp only [rule_agent]
      rw [if_neg hall, hcands]
    rw [hrule]
    refine ⟨?_, hmax_le, ?_, rfl, rfl, rfl⟩
    · exact hmem_cid _ (hcands ▸ hspec.1)
    · intro p hp hp2
      have hpc := hin_cand p hp hp2
      rw [hcands] at hpc
      exact hspec.2 p.1 hpc

/-- Witness for `rule_agent_keywords_spec`: the caption "fridge forno"
ties categories 1 and 4 at score 1 and the evidence source is
"keywords" (the returned category is 1 by the preference order). -/
theorem rule_agent_keywords_spec_witness :
    (rule_agent (some "fridge forno") none none).evidence.source = "keywords" ∧
    (rule_agent (some "fridge forno") none none).category_id = 1 ∧
    catScoresOf (combinedText (some "fridge forno") none) =
      [(1, 1), (2, 0), (3, 0), (4, 1), (5, 0), (6, 0)] :=
  ⟨(rule_agent_keywords_spec (some "fridge forno") none none
      ⟨(1, 1), by decide, by decide⟩).2.2.2.2.1, by decide, by decide⟩

/-- A per-crop caption provider whose every call fails (a concrete
fallible vision client). -/
def failingCapCall : Nat → Except VisionError (Option String) :=
  fun _ => Except.error VisionError.providerFailure

/-- C8 counterexample: a failing per-crop caption call does NOT degrade
gracefully — with one detected object and one crop, the failure of the
caption call makes the whole caption-attachment step of
`analyze_image_bytes` return the provider error instead of an object
list, so the error propagates to the caller. -/
theorem crop_caption_failure_not_graceful :
    attachCaptions failingCapCall 1 0 [⟨some "laptop", 1 / 2, none, none, none⟩] =
      Except.error VisionError.providerFailure ∧
    attachCaptions failingCapCall 1 0 [⟨some "laptop", 1 / 2, none, none, none⟩] ≠
      Except.ok [⟨some "laptop", 1 / 2, none, none, none⟩] := by
  refine ⟨rfl, ?_⟩
  intro hok
  have h1 : attachCaptions failingCapCall 1 0
      [⟨some "laptop", 1 / 2, none, none, none⟩] =
      Except.error VisionError.providerFailure := rfl
  rw [h1] at hok
  exact Except.noConfusion hok

/-- C8 amended: when the per-crop caption call for the object at the
head of the list fails (and that object has a crop), the error
propagates out of the detector's caption loop — the request fails
rather than continuing with a caption-less object. -/
theorem crop_caption_failure_propagates
    (capCall : Nat → Except VisionError (Option String)) (e : VisionError)
    (idx numCrops : Nat) (o : DetObj) (rest : List DetObj)
    (hidx : idx < numCrops) (hfail : capCall idx = Except.error e) :
    attachCaptions capCall numCrops idx (o :: rest) = Except.error e := by
  unfold attachCaptions
  rw [if_neg (not_le.mpr hidx)]
  rw [hfail]
  rfl

/-- Witness for `crop_caption_failure_propagates` on a two-object list
with two crops. -/
theorem crop_caption_failure_propagates_witness :
    attachCaptions failingCapCall 2 0
      [⟨some "tv", 1, none, none, none⟩, ⟨some "mouse", 0, none, none, none⟩] =
      Except.error VisionError.providerFailure :=
  crop_caption_failure_propagates failingCapCall VisionError.providerFailure 0 2
    ⟨some "tv", 1, none, none, none⟩ [⟨some "mouse", 0, none, none, none⟩]
    (by decide) rfl

/-- The end-to-end scenario from the spec: the detector reported a sole
object named "refrigerator" with confidence 0.9, no caption, no bbox,
and no scene caption; classification of the 100×100 image without the
LLM arbiter. -/
def refrigeratorResult : ClassificationResult :=
  classify_image_bytes 100 100
    ⟨none, [⟨some "refrigerator", 9 / 10, none, none, none⟩], "", ""⟩ false none

/-- The same scenario with the object named "fridge" instead. -/
def fridgeResult : ClassificationResult :=
  classify_image_bytes 100 100
    ⟨none, [⟨some "fridge", 9 / 10, none, none, none⟩], "", ""⟩ false none

/-- C9 counterexample: the end-to-end scenario of the spec fails on the
code — an image whose sole detected object is named "refrigerator" with
confidence 0.9 and no caption is NOT classified as category 1 with
source "keywords": the word "refrigerator" matches no keyword of any
category (the table has "refrigerador" and "fridge" but not
"refrigerator"), so the classifier falls through to the size fallback
and returns category 5 with source "size_fallback". -/
theorem refrigerator_scenario_fails :
    refrigeratorResult.category = some (5, "Pequenos (dimensão <= 50cm)") ∧
    refrigeratorResult.category ≠ some (1, "Equipamentos de troca de temperatura") ∧
    refrigeratorResult.explanation =
      some { source := "size_fallback", scores := none,
             text := "refrigerator", size_bucket := none } ∧
    refrigeratorResult.confidence = 9 / 10 ∧
    sumScores (catScoresOf "refrigerator") = 0 := by
  refine ⟨rfl, ?_, rfl, rfl, by decide⟩
  intro hc
  have h1 : refrigeratorResult.category = some (5, "Pequenos (dimensão <= 50cm)") := rfl
  rw [h1] at hc
  simp at hc

/-- C9 amended: the same end-to-end scenario with the object named
"fridge" (a keyword actually present in the category-1 table) yields
category 1 ("Equipamentos de troca de temperatura"), confidence 0.9,
and evidence source "keywords". -/
theorem fridge_scenario_category1 :
    fridgeResult.category = some (1, "Equipamentos de troca de temperatura") ∧
    fridgeResult.confidence = 9 / 10 ∧
    fridgeResult.explanation =
      some { source := "keywords",
             scores := some [(1, 1), (2, 0), (3, 0), (4, 0), (5, 0), (6, 0)],
             text := "fridge", size_bucket := none } :=
  ⟨rfl, rfl, rfl⟩

end WEEE
